import Mathlib

/-!
Shallow embedding of the lbex external load-balancer controller (Go) and
proofs about its behaviour.  Each definition mirrors one Go function or type
of the repository; theorems settle the specification claims C1 to C10.
-/

namespace Lbex

/-! Association lists model Go maps with string keys: lookup, assignment
(replace-or-append) and delete.  Iteration order over a Go map is not
specified; wherever the observable output of the program depends on it, the
iteration sequence is an explicit parameter. -/

def alookup {α : Type} : List (String × α) → String → Option α
  | [], _ => none
  | (k2, v) :: rest, k => if k2 == k then some v else alookup rest k

def ainsert {α : Type} : List (String × α) → String → α → List (String × α)
  | [], k, v => [(k, v)]
  | (k2, v2) :: rest, k, v =>
      if k2 == k then (k2, v) :: rest else (k2, v2) :: ainsert rest k v

def aerase {α : Type} (l : List (String × α)) (k : String) : List (String × α) :=
  l.filter (fun p => p.1 != k)

/-- Go strings.EqualFold specialised to ASCII case folding: the program only
ever compares against the all-ASCII literal "none", on which Unicode simple
folding and ASCII lowering agree (src/service.go ServiceTypeHeadless). -/
def stringsEqualFold (a b : String) : Bool :=
  a.toLower == b.toLower

/-- Go strconv.ParseBool: exactly these thirteen accepted spellings
(annotations parseBool, src/unnamed/part_000). -/
def goParseBool (s : String) : Option Bool :=
  if s == "1" || s == "t" || s == "T" || s == "true" || s == "TRUE" || s == "True" then
    some true
  else if s == "0" || s == "f" || s == "F" || s == "false" || s == "FALSE" || s == "False" then
    some false
  else
    none

def digitsVal : List Char → Option Nat
  | [] => some 0
  | c :: rest =>
      if c.isDigit then
        match digitsVal rest with
        | some n => some (n + (c.toNat - 48) * 10 ^ rest.length)
        | none => none
      else none

/-- Go strconv.Atoi: optional sign, decimal digits, 64-bit range check
(annotations parseInt, src/unnamed/part_000). -/
def goAtoi (s : String) : Option Int :=
  let cs := s.toList
  let signDigits : Bool × List Char :=
    match cs with
    | '-' :: rest => (true, rest)
    | '+' :: rest => (false, rest)
    | _ => (false, cs)
  if signDigits.2.isEmpty then none
  else
    match digitsVal signDigits.2 with
    | none => none
    | some n =>
        let v : Int := if signDigits.1 then -(n : Int) else (n : Int)
        if v < -(2 ^ 63) || v > 2 ^ 63 - 1 then none else some v

/-! Annotation vocabulary, from src/unnamed/part_000 (second revision of the
annotations package, the one the configurator links against). -/

def LBEXClassKey : String := "kubernetes.io/loadbalancer-class"

def LBEXClassKeyValue : String := "loadbalancer-lbex"

def LBEXAlgorithmKey : String := "loadbalancer.lbex/algorithm"

def LBEXMethodKey : String := "loadbalancer.lbex/method"

def LBEXHostKey : String := "loadbalancer.lbex/host"

def LBEXResolverKey : String := "loadbalancer.lbex/resolver"

def LBEXUpstreamType : String := "loadbalancer.lbex/upstream-type"

def LBEXNodeAddressType : String := "loadbalancer.lbex/node-address-type"

def LBEXNodeSet : String := "loadbalancer.lbex/node-set"

/-- Modelled from the spec: the per-port listener annotation key base
(spec section 4.2, key port.name).  The constant is referenced by
generateStreamNginxConfig (src/nginx/stream.go line 469) but the file defining
it is not under src/; the README documents the key family as
loadbalancer-port.lbex/[port-name].  No theorem depends on its exact text. -/
def LBEXPortAnnotBase : String := "loadbalancer-port.lbex/"

/-- Modelled from the spec: the ip-passthrough boolean annotation key
(spec section 4.2).  Referenced by generateStreamNginxConfig
(src/nginx/stream.go line 481); its defining file is not under src/.
No theorem depends on its exact text. -/
def LBEXIpPassthrough : String := "loadbalancer.lbex/ip-passthrough"

inductive AnnErr where
  | missing
  | invalidName
  | invalidContent
deriving DecidableEq, Repr

/-! The kubernetes service record, reduced to the fields the program reads. -/

inductive TargetPortV where
  | int (n : Int)
  | str (s : String)
deriving DecidableEq, Repr

structure ServicePortV1 where
  Name : String
  Protocol : String
  Port : Int
  TargetPort : TargetPortV
  NodePort : Int
deriving DecidableEq, Repr

structure ServiceV1 where
  Name : String
  Namespace : String
  ServiceType : String
  ClusterIP : String
  Annotations : List (String × String)
  Ports : List ServicePortV1
deriving DecidableEq, Repr

/-- checkAnnotation + parseString of the annotations package: missing when the
record carries no annotations at all or the key is absent. -/
def getStringAnn (name : String) (s : ServiceV1) : Except AnnErr String :=
  if name == "" then .error .invalidName
  else if s.Annotations.isEmpty then .error .missing
  else
    match alookup s.Annotations name with
    | some v => .ok v
    | none => .error .missing

/-- GetOptionalStringAnnotation: the string value, or empty string when the
key is missing (present flag true) or on any other error (flag false). -/
def getOptionalStringAnn (name : String) (s : ServiceV1) : String × Bool :=
  match getStringAnn name s with
  | .ok v => (v, true)
  | .error .missing => ("", true)
  | .error _ => ("", false)

/-- GetIntAnnotation: checkAnnotation then strconv.Atoi on the raw value. -/
def getIntAnn (name : String) (s : ServiceV1) : Except AnnErr Int :=
  if name == "" then .error .invalidName
  else if s.Annotations.isEmpty then .error .missing
  else
    match alookup s.Annotations name with
    | some v =>
        match goAtoi v with
        | some i => .ok i
        | none => .error .invalidContent
    | none => .error .missing

/-- GetBoolAnnotation: checkAnnotation then strconv.ParseBool. -/
def getBoolAnn (name : String) (s : ServiceV1) : Except AnnErr Bool :=
  if name == "" then .error .invalidName
  else if s.Annotations.isEmpty then .error .missing
  else
    match alookup s.Annotations name with
    | some v =>
        match goParseBool v with
        | some b => .ok b
        | none => .error .invalidContent
    | none => .error .missing

/-- GetOptionalBoolAnnotation: false when missing or malformed. -/
def getOptionalBoolAnn (name : String) (s : ServiceV1) : Bool × Bool :=
  match getBoolAnn name s with
  | .ok v => (v, true)
  | .error .missing => (false, true)
  | .error _ => (false, false)

/-- IsValid of the annotations package (src/unnamed/part_000 lines 415-418):
the class annotation must carry the recognized value. -/
def annIsValid (s : ServiceV1) : Bool :=
  (getOptionalStringAnn LBEXClassKey s).1 == LBEXClassKeyValue

/-! Object adapters from src/service.go.  The program receives records as
dynamically typed values; only current-API service records validate. -/

inductive K8sObj where
  | v1Service (s : ServiceV1)
  | apiService
  | other
deriving DecidableEq, Repr

/-- ValidateServiceObjectType (src/service.go lines 101-109): only a
current-API service record passes; the legacy shape and anything else fail. -/
def ValidateServiceObjectType : K8sObj → Option String
  | .v1Service _ => none
  | .apiService => some "ValidateServiceObjectType: unsupported type api.* (must be v1.*)"
  | .other => some "ValidateServiceObjectType: unexpected type"

def GetServiceType : K8sObj → Except String String
  | .v1Service s => .ok s.ServiceType
  | _ => .error "type assertion failure"

def GetClusterIP : K8sObj → Except String String
  | .v1Service s => .ok s.ClusterIP
  | _ => .error "type assertion failure"

def ServiceTypeLoadBalancer (obj : K8sObj) : Bool :=
  match GetServiceType obj with
  | .ok t => t == "LoadBalancer"
  | .error _ => false

def ServiceTypeNodePort (obj : K8sObj) : Bool :=
  match GetServiceType obj with
  | .ok t => t == "NodePort"
  | .error _ => false

def ServiceTypeClusterIP (obj : K8sObj) : Bool :=
  match GetServiceType obj with
  | .ok t => t == "ClusterIP"
  | .error _ => false

def noneString : String := "none"

/-- ServiceTypeHeadless (src/service.go lines 185-191): cluster IP equals the
headless sentinel, compared case-insensitively. -/
def ServiceTypeHeadless (obj : K8sObj) : Bool :=
  match GetClusterIP obj with
  | .ok ip => stringsEqualFold ip noneString
  | .error _ => false

/-- IsValidServiceType (src/service.go lines 195-201). -/
def IsValidServiceType (obj : K8sObj) : Bool :=
  !ServiceTypeHeadless obj &&
    (ServiceTypeNodePort obj || ServiceTypeClusterIP obj || ServiceTypeLoadBalancer obj)

/-- The annotations IsValid gate as invoked on a dynamically typed object by
ValidateServiceObject; the non-service branches are unreachable there because
the type check runs first. -/
def annIsValidObj : K8sObj → Bool
  | .v1Service s => annIsValid s
  | _ => false

/-- ValidateServiceObject (src/service.go lines 82-97): type check, then
service-type check, then annotation class gate. -/
def ValidateServiceObject (obj : K8sObj) : Bool :=
  match ValidateServiceObjectType obj with
  | some _ => false
  | none =>
      if !IsValidServiceType obj then false
      else if !annIsValidObj obj then false
      else true

/-- Admissibility as the specification words it (spec sections 3 and 4.1):
class annotation carries the recognized value, service type is one of the
three supported ones, and the cluster IP is not the headless sentinel. -/
def SpecAdmissible (s : ServiceV1) : Prop :=
  alookup s.Annotations LBEXClassKey = some LBEXClassKeyValue ∧
  (s.ServiceType = "NodePort" ∨ s.ServiceType = "ClusterIP" ∨ s.ServiceType = "LoadBalancer") ∧
  stringsEqualFold s.ClusterIP noneString = false

theorem annIsValid_iff (s : ServiceV1) :
    annIsValid s = true ↔ alookup s.Annotations LBEXClassKey = some LBEXClassKeyValue := by
  unfold annIsValid getOptionalStringAnn getStringAnn
  have hkey : (LBEXClassKey == "") = false := by decide
  rw [hkey]
  simp only [Bool.false_eq_true, if_false]
  by_cases hemp : s.Annotations.isEmpty
  · have : s.Annotations = [] := by
      cases h : s.Annotations with
      | nil => rfl
      | cons a l => rw [h] at hemp; simp [List.isEmpty] at hemp
    rw [hemp]
    simp only [if_true]
    rw [this]
    constructor
    · intro h; exact absurd h (by decide)
    · intro h; simp [alookup] at h
  · simp only [hemp, if_false]
    cases hl : alookup s.Annotations LBEXClassKey with
    | none =>
        constructor
        · intro h; exact absurd h (by decide)
        · intro h; exact absurd h (by simp)
    | some v =>
        simp only []
        constructor
        · intro h
          have : v = LBEXClassKeyValue := by
            have := of_decide_eq_true h
            exact this
          rw [this]
        · intro h
          have : v = LBEXClassKeyValue := by injection h
          rw [this]
          exact beq_self_eq_true LBEXClassKeyValue

/-- C1: ValidateServiceObject returns true exactly when the record is a
current-API service whose class annotation carries the recognized value, whose
type is node-port, cluster-ip or load-balancer, and whose cluster IP is not
the headless sentinel (case-insensitively); it returns false on every other
record, including records that are not service objects at all. -/
theorem validateServiceObject_iff_admissible (obj : K8sObj) :
    ValidateServiceObject obj = true ↔
      ∃ s, obj = K8sObj.v1Service s ∧ SpecAdmissible s := by
  cases obj with
  | apiService =>
      constructor
      · intro h; exact absurd h (by decide)
      · rintro ⟨s, hs, _⟩; exact absurd hs (by simp)
  | other =>
      constructor
      · intro h; exact absurd h (by decide)
      · rintro ⟨s, hs, _⟩; exact absurd hs (by simp)
  | v1Service s =>
      have hred : ValidateServiceObject (K8sObj.v1Service s) =
          (!stringsEqualFold s.ClusterIP noneString &&
            (s.ServiceType == "NodePort" || s.ServiceType == "ClusterIP" ||
              s.ServiceType == "LoadBalancer") &&
            annIsValid s) := by
        unfold ValidateServiceObject ValidateServiceObjectType annIsValidObj
          IsValidServiceType ServiceTypeHeadless ServiceTypeNodePort
          ServiceTypeClusterIP ServiceTypeLoadBalancer GetServiceType GetClusterIP
        cases hH : stringsEqualFold s.ClusterIP noneString <;>
          cases hN : s.ServiceType == "NodePort" <;>
          cases hC : s.ServiceType == "ClusterIP" <;>
          cases hL : s.ServiceType == "LoadBalancer" <;>
          cases hA : annIsValid s <;> simp [hH, hN, hC, hL, hA]
      rw [hred]
      simp only [Bool.and_eq_true, Bool.or_eq_true, beq_iff_eq, Bool.not_eq_true',
        annIsValid_iff]
      constructor
      · rintro ⟨⟨hip, hty⟩, hcls⟩
        exact ⟨s, rfl, hcls, by tauto, hip⟩
      · rintro ⟨s2, hs2, hcls, hty, hip⟩
        have hss : s2 = s := by injection hs2.symm
        subst hss
        exact ⟨⟨hip, by tauto⟩, hcls⟩

/-! Stream-path vocabulary and validators from src/nginx/service.go. -/

def RoundRobin : String := "round_robin"

def LeastConnections : String := "least_conn"

def LowestLatency : String := "least_time"

def DefaultAlgorithm : String := RoundRobin

def SupportedAlgorithms : List String := [RoundRobin, LeastConnections, LowestLatency]

def Connect : String := "connect"

def FirstByte : String := "first_byte"

def LastByte : String := "last_byte"

def ConnectInflight : String := "connect inflight"

def FirstByteInflight : String := "first_byte inflight"

def LastByteInflight : String := "last_byte inflight"

def DefaultMethod : String := Connect

def SupportedMethods : List String :=
  [Connect, FirstByte, LastByte, ConnectInflight, FirstByteInflight, LastByteInflight]

def HostNode : String := "node"

def Pod : String := "pod"

def ClusterIPType : String := "cluster-ip"

def DefaultUpstreamType : String := HostNode

def UpstreamTypes : List String := [HostNode, Pod, ClusterIPType]

def HostSet : String := "host"

def AllSet : String := "all"

def DefaultNodeSet : String := HostSet

def NodeSelectionSets : List String := [HostSet, AllSet]

def InternalAddr : String := "internal"

def ExternalAddr : String := "external"

def DefaultNodeAddressType : String := InternalAddr

def NodeAddressTypes : List String := [InternalAddr, ExternalAddr]

/-- ValidateAlgorithm (src/nginx/service.go lines 146-158): the linear scan
over SupportedAlgorithms, default on miss. -/
def ValidateAlgorithm (a : String) : String :=
  if SupportedAlgorithms.any (fun current => a == current) then a else DefaultAlgorithm

/-- ValidateMethod (src/nginx/service.go lines 162-174). -/
def ValidateMethod (m : String) : String :=
  if SupportedMethods.any (fun current => m == current) then m else DefaultMethod

/-- ValidateUpstreamType (src/nginx/service.go lines 178-190). -/
def ValidateUpstreamType (ups : String) : String :=
  if UpstreamTypes.any (fun current => ups == current) then ups else DefaultUpstreamType

/-- ValidateNodeAddressType (src/nginx/service.go lines 194-206). -/
def ValidateNodeAddressType (at2 : String) : String :=
  if NodeAddressTypes.any (fun current => at2 == current) then at2 else DefaultNodeAddressType

/-- ValidateNodeSet (src/nginx/service.go lines 210-222). -/
def ValidateNodeSet (set : String) : String :=
  if NodeSelectionSets.any (fun current => set == current) then set else DefaultNodeSet

theorem validator_shape (supported : List String) (dflt : String) (s : String)
    (hd : supported.any (fun current => dflt == current) = true) :
    (if supported.any (fun current => s == current) then s else dflt) ∈ supported ∧
      ((if supported.any (fun current =>
          (if supported.any (fun c2 => s == c2) then s else dflt) == current) then
          (if supported.any (fun c2 => s == c2) then s else dflt) else dflt) =
        (if supported.any (fun current => s == current) then s else dflt)) := by
  by_cases h : supported.any (fun current => s == current) = true
  · rw [if_pos h]
    constructor
    · rcases List.any_eq_true.mp h with ⟨x, hx, he⟩
      have hsx : s = x := by simpa using he
      rw [hsx]
      exact hx
    · rw [if_pos h]
  · rw [if_neg h]
    constructor
    · rcases List.any_eq_true.mp hd with ⟨x, hx, he⟩
      have hsx : dflt = x := by simpa using he
      rw [hsx]
      exact hx
    · rw [if_pos hd]

/-- C10: each annotation-value validator is total, always lands in its
supported set, is the identity on members and the documented default
otherwise, and is idempotent. -/
theorem validators_default_and_idempotent (s : String) :
    (ValidateAlgorithm s = (if s ∈ SupportedAlgorithms then s else DefaultAlgorithm) ∧
      ValidateAlgorithm s ∈ SupportedAlgorithms ∧
      ValidateAlgorithm (ValidateAlgorithm s) = ValidateAlgorithm s) ∧
    (ValidateMethod s = (if s ∈ SupportedMethods then s else DefaultMethod) ∧
      ValidateMethod s ∈ SupportedMethods ∧
      ValidateMethod (ValidateMethod s) = ValidateMethod s) ∧
    (ValidateUpstreamType s = (if s ∈ UpstreamTypes then s else DefaultUpstreamType) ∧
      ValidateUpstreamType s ∈ UpstreamTypes ∧
      ValidateUpstreamType (ValidateUpstreamType s) = ValidateUpstreamType s) ∧
    (ValidateNodeAddressType s = (if s ∈ NodeAddressTypes then s else DefaultNodeAddressType) ∧
      ValidateNodeAddressType s ∈ NodeAddressTypes ∧
      ValidateNodeAddressType (ValidateNodeAddressType s) = ValidateNodeAddressType s) ∧
    (ValidateNodeSet s = (if s ∈ NodeSelectionSets then s else DefaultNodeSet) ∧
      ValidateNodeSet s ∈ NodeSelectionSets ∧
      ValidateNodeSet (ValidateNodeSet s) = ValidateNodeSet s) := by
  have hmem : ∀ (l : List String) (x : String),
      (l.any (fun current => x == current) = true) ↔ x ∈ l := by
    intro l x
    rw [List.any_eq_true]
    constructor
    · rintro ⟨y, hy, he⟩
      have hxy : x = y := by simpa using he
      rwa [hxy]
    · intro hx
      exact ⟨x, hx, by simp⟩
  refine ⟨⟨?_, ?_⟩, ⟨?_, ?_⟩, ⟨?_, ?_⟩, ⟨?_, ?_⟩, ⟨?_, ?_⟩⟩
  · unfold ValidateAlgorithm
    by_cases h : s ∈ SupportedAlgorithms
    · rw [if_pos ((hmem _ _).mpr h), if_pos h]
    · rw [if_neg (fun hc => h ((hmem _ _).mp hc)), if_neg h]
  · exact validator_shape SupportedAlgorithms DefaultAlgorithm s (by decide)
  · unfold ValidateMethod
    by_cases h : s ∈ SupportedMethods
    · rw [if_pos ((hmem _ _).mpr h), if_pos h]
    · rw [if_neg (fun hc => h ((hmem _ _).mp hc)), if_neg h]
  · exact validator_shape SupportedMethods DefaultMethod s (by decide)
  · unfold ValidateUpstreamType
    by_cases h : s ∈ UpstreamTypes
    · rw [if_pos ((hmem _ _).mpr h), if_pos h]
    · rw [if_neg (fun hc => h ((hmem _ _).mp hc)), if_neg h]
  · exact validator_shape UpstreamTypes DefaultUpstreamType s (by decide)
  · unfold ValidateNodeAddressType
    by_cases h : s ∈ NodeAddressTypes
    · rw [if_pos ((hmem _ _).mpr h), if_pos h]
    · rw [if_neg (fun hc => h ((hmem _ _).mp hc)), if_neg h]
  · exact validator_shape NodeAddressTypes DefaultNodeAddressType s (by decide)
  · unfold ValidateNodeSet
    by_cases h : s ∈ NodeSelectionSets
    · rw [if_pos ((hmem _ _).mpr h), if_pos h]
    · rw [if_neg (fun hc => h ((hmem _ _).mp hc)), if_neg h]
  · exact validator_shape NodeSelectionSets DefaultNodeSet s (by decide)

/-! Proxy driver, from src/nginx/nginx.go. -/

inductive Configuration where
  | LocalCfg
  | StreamCfg
  | HTTPCfg
  | StreamHTTPCfg
deriving DecidableEq, Repr

/-- Outcome of one Reload invocation: whether the validation command ran,
whether the reload signal was sent, and the error returned, if any. -/
structure ReloadOutcome where
  validationRan : Bool
  signalSent : Bool
  err : Option String
deriving DecidableEq, Repr

/-- Reload (src/nginx/nginx.go lines 134-146).  The two external command
invocations (nginx -t, nginx -s reload) are modelled by their success flags;
the function runs validation first and only signals on success. -/
def Reload (cfgType : Configuration) (validateOK : Bool) (signalOK : Bool) : ReloadOutcome :=
  if cfgType != Configuration.LocalCfg then
    if !validateOK then
      { validationRan := true, signalSent := false,
        err := some "Reload: Invalid nginx configuration detected, not reloading" }
    else if !signalOK then
      { validationRan := true, signalSent := true,
        err := some "Reload: Reloading NGINX failed" }
    else
      { validationRan := true, signalSent := true, err := none }
  else
    { validationRan := false, signalSent := false, err := none }

/-- C8: outside local-test mode, Reload always runs validation first; a
validation failure yields an error with the reload signal never sent; on
validation success the signal is sent and an error is returned exactly when
the signal fails. -/
theorem reload_validates_before_signal (cfgType : Configuration)
    (validateOK signalOK : Bool) (h : cfgType ≠ Configuration.LocalCfg) :
    (Reload cfgType validateOK signalOK).validationRan = true ∧
    (Reload cfgType validateOK signalOK).signalSent = validateOK ∧
    ((Reload cfgType validateOK signalOK).err.isSome =
      (!validateOK || (validateOK && !signalOK))) := by
  have hne : (cfgType != Configuration.LocalCfg) = true := by
    cases cfgType <;> simp_all
  unfold Reload
  rw [hne]
  cases validateOK <;> cases signalOK <;> simp

theorem reload_validates_before_signal_witness :
    Configuration.StreamCfg ≠ Configuration.LocalCfg ∧
    ((Reload Configuration.StreamCfg false true).validationRan = true ∧
      (Reload Configuration.StreamCfg false true).signalSent = false ∧
      ((Reload Configuration.StreamCfg false true).err.isSome =
        (!false || (false && !true)))) :=
  ⟨by decide, reload_validates_before_signal Configuration.StreamCfg false true (by decide)⟩

/-! Topology resolver, from src/unnamed/part_006 (lbExController.getEndpoints).
The kubernetes endpoint record model: an endpoint address carries an optional
node-name pointer, which the Go code dereferences unconditionally. -/

structure EndpointAddress where
  IP : String
  NodeName : Option String
deriving DecidableEq, Repr

structure EndpointPortRec where
  Name : String
  Port : Int
  Protocol : String
deriving DecidableEq, Repr

structure EndpointSubset where
  Addresses : List EndpointAddress
  Ports : List EndpointPortRec
deriving DecidableEq, Repr

/-- An Endpoint as assembled by the resolver (src/service.go lines 18-35);
the NodeIP field is never assigned by getEndpoints and stays empty. -/
structure Endpoint where
  ServicePort : Int
  NodeIP : String
  NodeName : String
  NodePort : Int
  PortName : String
  PodIP : String
  PodPort : Int
  Protocol : String
deriving DecidableEq, Repr

/-- The canonical target-port computation of getEndpoints
(src/unnamed/part_006 lines 325-339): zero signals no match. -/
def epTargetPort (servicePort : ServicePortV1) (epPort : EndpointPortRec) : Int :=
  match servicePort.TargetPort with
  | .int n => if epPort.Port == n then n else 0
  | .str nm => if epPort.Name == nm then epPort.Port else 0

/-- The address loop of getEndpoints (src/unnamed/part_006 lines 344-355).
The Go code dereferences the node-name pointer without a nil check; a none
node-name therefore aborts the whole resolver with a runtime panic, modelled
as the none result. -/
def epAddressLoop (servicePort : ServicePortV1) (epPort : EndpointPortRec)
    (targetPort : Int) : List EndpointAddress → Option (List Endpoint)
  | [] => some []
  | addr :: rest =>
      match addr.NodeName with
      | none => none
      | some nn =>
          match epAddressLoop servicePort epPort targetPort rest with
          | none => none
          | some eps =>
              some ({ ServicePort := servicePort.Port, NodeIP := "", NodeName := nn,
                      NodePort := servicePort.NodePort, PortName := epPort.Name,
                      PodIP := addr.IP, PodPort := targetPort,
                      Protocol := epPort.Protocol } :: eps)

def epPortLoop (servicePort : ServicePortV1) (addresses : List EndpointAddress) :
    List EndpointPortRec → Option (List Endpoint)
  | [] => some []
  | epPort :: rest =>
      let targetPort := epTargetPort servicePort epPort
      if targetPort == 0 then epPortLoop servicePort addresses rest
      else
        match epAddressLoop servicePort epPort targetPort addresses with
        | none => none
        | some eps =>
            match epPortLoop servicePort addresses rest with
            | none => none
            | some eps2 => some (eps ++ eps2)

/-- getEndpoints (src/unnamed/part_006 lines 286-359), as a function of the
subsets of the matching endpoints record: the Cartesian product of matching subset
ports and addresses; none models the nil-pointer panic on an address whose
node-name is absent. -/
def getEndpoints (servicePort : ServicePortV1) :
    List EndpointSubset → Option (List Endpoint)
  | [] => some []
  | subset :: rest =>
      match epPortLoop servicePort subset.Addresses subset.Ports with
      | none => none
      | some eps =>
          match getEndpoints servicePort rest with
          | none => none
          | some eps2 => some (eps ++ eps2)

/-- Concrete failing input for C4: the S1 scenario of the spec with the
node-name left absent on the endpoint address. -/
def c4ServicePort : ServicePortV1 :=
  { Name := "ntp", Protocol := "UDP", Port := 123,
    TargetPort := TargetPortV.int 30123, NodePort := 30123 }

def c4Subsets : List EndpointSubset :=
  [{ Addresses := [{ IP := "10.1.1.5", NodeName := none }],
     Ports := [{ Name := "ntp", Port := 30123, Protocol := "UDP" }] }]

/-- C4, code bug: on an endpoint address whose node-name is absent the
resolver dereferences a nil pointer and aborts (none) instead of emitting a
Target with the empty node-name; with the node-name present the same input
resolves normally. -/
theorem getEndpoints_aborts_on_missing_node_name :
    getEndpoints c4ServicePort c4Subsets = none ∧
    getEndpoints c4ServicePort
        [{ Addresses := [{ IP := "10.1.1.5", NodeName := some "n1" }],
           Ports := [{ Name := "ntp", Port := 30123, Protocol := "UDP" }] }] =
      some [{ ServicePort := 123, NodeIP := "", NodeName := "n1", NodePort := 30123,
              PortName := "ntp", PodIP := "10.1.1.5", PodPort := 30123,
              Protocol := "UDP" }] := by
  constructor <;> rfl

/-! Work queue, from src/unnamed/part_007 (TaskQueue) over the kubernetes
workqueue.Type it instantiates with workqueue.New(): a de-duplicating FIFO
with a dirty set, a processing set and a shutdown flag.  There is no rate
limiter and no delaying add in this queue type. -/

def sinsert (k : String) (l : List String) : List String :=
  if l.contains k then l else l ++ [k]

def sdelete (k : String) (l : List String) : List String :=
  l.filter (fun x => x != k)

structure TQState where
  queue : List String
  dirty : List String
  processing : List String
  shuttingDown : Bool
deriving DecidableEq, Repr

/-- workqueue.Type.Add: ignored after shutdown (documented contract of
ShutDown), de-duplicated through the dirty set, deferred while the item is
being processed. -/
def wqAdd (k : String) (s : TQState) : TQState :=
  if s.shuttingDown then s
  else if s.dirty.contains k then s
  else
    let s2 := { s with dirty := sinsert k s.dirty }
    if s.processing.contains k then s2
    else { s2 with queue := s2.queue ++ [k] }

/-- workqueue.Type.Get on a non-empty queue: pop the head, mark it processing,
clear it from the dirty set.  An empty queue blocks (or reports shutdown) and
is modelled as no item. -/
def wqGet (s : TQState) : Option String × TQState :=
  match s.queue with
  | [] => (none, s)
  | k :: rest =>
      (some k,
        { s with
            queue := rest
            processing := sinsert k s.processing
            dirty := sdelete k s.dirty })

/-- workqueue.Type.Done: stop processing the item and re-queue it if it went
dirty meanwhile. -/
def wqDone (k : String) (s : TQState) : TQState :=
  let s2 := { s with processing := sdelete k s.processing }
  if s2.dirty.contains k then { s2 with queue := s2.queue ++ [k] } else s2

def wqShutDown (s : TQState) : TQState :=
  { s with shuttingDown := true }

/-- TaskQueue.Enqueue (src/unnamed/part_007 lines 53-68): refuses outright
once shutdown has been observed, otherwise adds the derived key. -/
def tqEnqueue (k : String) (s : TQState) : TQState :=
  if s.shuttingDown then s else wqAdd k s

/-- TaskQueue.Requeue (src/unnamed/part_007 lines 71-74): an immediate Add of
the same key, with no delay of any kind. -/
def tqRequeue (k : String) (s : TQState) : TQState :=
  wqAdd k s

/-- TaskQueue.Shutdown (src/unnamed/part_007 lines 104-107). -/
def tqShutdown (s : TQState) : TQState :=
  wqShutDown s

/-- One iteration of TaskQueue.worker (src/unnamed/part_007 lines 77-96):
get a key, run the sync function, requeue on error, then mark done.  The
sync function is abstracted by its success predicate. -/
def workerStep (sync : String → Bool) (s : TQState) : TQState :=
  match wqGet s with
  | (none, _) => s
  | (some k, s1) => wqDone k (if sync k then s1 else tqRequeue k s1)

inductive TQOp where
  | enqueue (k : String)
  | requeue (k : String)
  | worker
  | shutdown
deriving DecidableEq, Repr

def applyOp (sync : String → Bool) (s : TQState) : TQOp → TQState
  | .enqueue k => tqEnqueue k s
  | .requeue k => tqRequeue k s
  | .worker => workerStep sync s
  | .shutdown => tqShutdown s

def applyOps (sync : String → Bool) (s : TQState) (ops : List TQOp) : TQState :=
  ops.foldl (applyOp sync) s

theorem applyOp_preserves_shutdown (sync : String → Bool) (s : TQState) (op : TQOp)
    (h : s.shuttingDown = true) : (applyOp sync s op).shuttingDown = true := by
  cases op with
  | enqueue k => simp [applyOp, tqEnqueue, h]
  | requeue k => simp [applyOp, tqRequeue, wqAdd, h, sinsert]
  | worker =>
      unfold applyOp workerStep wqGet
      cases hq : s.queue with
      | nil => exact h
      | cons k rest =>
          simp only []
          unfold wqDone tqRequeue wqAdd
          cases sync k <;> simp [h] <;> split <;> simp [h]
  | shutdown => simp [applyOp, tqShutdown, wqShutDown]

theorem applyOps_preserves_shutdown (sync : String → Bool) (s : TQState)
    (ops : List TQOp) (h : s.shuttingDown = true) :
    (applyOps sync s ops).shuttingDown = true := by
  induction ops generalizing s with
  | nil => exact h
  | cons op rest ih =>
      unfold applyOps
      rw [List.foldl_cons]
      exact ih (applyOp sync s op) (applyOp_preserves_shutdown sync s op h)

/-- C9: after Shutdown has been initiated, no later sequence of queue
operations clears the shutdown flag, and every subsequent Enqueue leaves the
queue state exactly unchanged: no key delivered after shutdown is ever added
for processing. -/
theorem enqueue_noop_after_shutdown (sync : String → Bool) (s : TQState)
    (ops : List TQOp) (k : String) :
    tqEnqueue k (applyOps sync (tqShutdown s) ops) = applyOps sync (tqShutdown s) ops := by
  have hsd : (applyOps sync (tqShutdown s) ops).shuttingDown = true :=
    applyOps_preserves_shutdown sync (tqShutdown s) ops rfl
  unfold tqEnqueue
  rw [hsd]
  simp

/-- Formalisation of C7 as claimed: after the worker pops a key whose sync
fails, the key would not be pending again immediately (it would wait for a
backoff interval).  The code refutes this: Requeue re-adds at once. -/
theorem worker_requeue_is_immediate_counterexample :
    ((workerStep (fun _ => false)
        { queue := ["ns1/svc1"], dirty := ["ns1/svc1"], processing := [],
          shuttingDown := false }).queue.contains "ns1/svc1") = true := by
  rfl

/-- C7 as amended: the queue is a plain de-duplicating FIFO without a rate
limiter; whenever the sync function fails on the key just taken, the worker
re-adds the key immediately, so it is pending again as soon as the worker
step completes. -/
theorem worker_requeues_failed_key_immediately (sync : String → Bool) (s : TQState)
    (k : String) (rest : List String) (hq : s.queue = k :: rest)
    (hsync : sync k = false) (hsd : s.shuttingDown = false) :
    k ∈ (workerStep sync s).queue := by
  unfold workerStep wqGet
  rw [hq]
  simp only [hsync, Bool.false_eq_true, if_false]
  unfold tqRequeue wqAdd wqDone
  simp only [hsd, Bool.false_eq_true, if_false]
  have hdirty : (sdelete k s.dirty).contains k = false := by
    simp [sdelete, List.contains_eq_any_beq, List.any_eq_true]
  rw [hdirty]
  simp only [Bool.false_eq_true, if_false]
  have hproc : (sinsert k s.processing).contains k = true := by
    unfold sinsert
    by_cases hc : s.processing.contains k
    · rw [if_pos hc]; exact hc
    · rw [if_neg hc]
      simp [List.contains_eq_any_beq, List.any_eq_true]
  rw [hproc]
  simp only [if_true]
  have hdirty2 : (sinsert k (sdelete k s.dirty)).contains k = true := by
    unfold sinsert
    rw [hdirty]
    simp only [Bool.false_eq_true, if_false]
    simp [List.contains_eq_any_beq, List.any_eq_true]
  simp only [hdirty2, if_true]
  simp

theorem worker_requeues_failed_key_immediately_witness :
    "a/b" ∈ (workerStep (fun _ => false)
        { queue := ["a/b"], dirty := ["a/b"], processing := [], shuttingDown := false }).queue :=
  worker_requeues_failed_key_immediately (fun _ => false)
    { queue := ["a/b"], dirty := ["a/b"], processing := [], shuttingDown := false }
    "a/b" [] rfl rfl rfl

/-! Stream configurator, from src/nginx/stream.go (second revision, the one
with generateStreamNginxConfig) and src/nginx/node.go. -/

structure Node where
  Name : String
  Hostname : String
  ExternalIP : String
  InternalIP : String
  Active : Bool
deriving DecidableEq, Repr

/-- Target (src/nginx/service.go lines 114-131). -/
structure Target where
  ServicePort : Int
  NodeIP : String
  NodeName : String
  NodePort : Int
  PortName : String
  PodIP : String
  PodPort : Int
  Protocol : String
deriving DecidableEq, Repr

/-- ServiceSpec (src/nginx/service.go lines 134-142). -/
structure ServiceSpec where
  Service : ServiceV1
  Key : String
  Algorithm : String
  ClusterIP : String
  ConfigName : String
  UpstreamType : String
  Topology : List Target
deriving DecidableEq, Repr

structure StreamUpstreamServer where
  Address : String
  Weight : String
  MaxConns : String
  MaxFails : String
  FailTimeout : String
  Backup : Bool
  Down : Bool
deriving DecidableEq, Repr

structure StreamUpstream where
  Name : String
  Algorithm : String
  LeastTimeMethod : String
  UpstreamServers : List StreamUpstreamServer
deriving DecidableEq, Repr

structure StreamListen where
  Address : String
  Port : String
  UDP : Bool
deriving DecidableEq, Repr

/-- Modelled from the spec: the stream server record of the revision that
generateStreamNginxConfig belongs to; its defining file is not under src/.
Fields follow the construction site (src/nginx/stream.go lines 483-491) and
the StreamServer entity of the spec (listen, proxy-protocol flag, pass-through
flag, upstream name). -/
structure StreamServerRec where
  Listen : StreamListen
  ProxyProtocol : Bool
  ProxyPassthrough : Bool
  ProxyPassAddress : String
deriving DecidableEq, Repr

structure StreamNginxConfig where
  Resolver : String
  Upstreams : List StreamUpstream
  Servers : List StreamServerRec
deriving DecidableEq, Repr

/-- The package-level mutable state of src/nginx/stream.go lines 144-157
(nodes, serviceUpstreamNodes, serviceUpstreamTarget) together with the set of
per-service stream configuration files on disk. -/
structure ConfigState where
  nodes : List (String × Node)
  serviceUpstreamNodes : List (String × List Node)
  serviceUpstreamTarget : List (String × List Target)
  streamFiles : List String
deriving DecidableEq, Repr

def emptyConfigState : ConfigState :=
  { nodes := [], serviceUpstreamNodes := [], serviceUpstreamTarget := [], streamFiles := [] }

def SingleDefaultPortName : String := "unnamed"

/-- getNameForStreamUpstream (src/nginx/stream.go lines 794-802). -/
def getNameForStreamUpstream (svc : ServiceV1) (portName : String) : String :=
  let pn := if portName == "" then SingleDefaultPortName else portName
  svc.Namespace ++ "-" ++ svc.Name ++ "-" ++ pn

def mkUpstreamServer (addr : String) : StreamUpstreamServer :=
  { Address := addr, Weight := "", MaxConns := "", MaxFails := "", FailTimeout := "",
    Backup := false, Down := false }

/-- formatAddress (src/nginx/stream.go lines 772-781). -/
def formatAddress (addrType : String) (node : Node) (target : Target) : String :=
  if addrType == InternalAddr then node.InternalIP ++ ":" ++ toString target.NodePort
  else node.ExternalIP ++ ":" ++ toString target.NodePort

/-- createClusterStreamUpstream (src/nginx/stream.go lines 716-723): records
the target in the cross-index under the service key and produces a one-member
upstream addressed at clusterIP:servicePort. -/
def createClusterStreamUpstream (spec : ServiceSpec) (st : ConfigState) (target : Target) :
    StreamUpstream × ConfigState :=
  let st2 := { st with
    serviceUpstreamTarget :=
      ainsert st.serviceUpstreamTarget spec.Key
        ((alookup st.serviceUpstreamTarget spec.Key).getD [] ++ [target]) }
  ({ Name := getNameForStreamUpstream spec.Service target.PortName,
     Algorithm := "", LeastTimeMethod := "",
     UpstreamServers := [mkUpstreamServer (spec.ClusterIP ++ ":" ++ toString target.ServicePort)] },
   st2)

/-- createPodStreamUpstream (src/nginx/stream.go lines 725-732). -/
def createPodStreamUpstream (spec : ServiceSpec) (st : ConfigState) (target : Target) :
    StreamUpstream × ConfigState :=
  let st2 := { st with
    serviceUpstreamTarget :=
      ainsert st.serviceUpstreamTarget spec.Key
        ((alookup st.serviceUpstreamTarget spec.Key).getD [] ++ [target]) }
  ({ Name := getNameForStreamUpstream spec.Service target.PortName,
     Algorithm := "", LeastTimeMethod := "",
     UpstreamServers := [mkUpstreamServer (target.PodIP ++ ":" ++ toString target.PodPort)] },
   st2)

/-- createNodesStreamUpstream (src/nginx/stream.go lines 734-770).  The
all-nodes branch ranges over the nodes map; that iteration sequence is the
explicit nodesIter parameter. -/
def createNodesStreamUpstream (spec : ServiceSpec) (st : ConfigState)
    (nodesIter : List Node) (target : Target) : StreamUpstream × ConfigState :=
  let set := ValidateNodeSet (getOptionalStringAnn LBEXNodeSet spec.Service).1
  let addressType := ValidateNodeAddressType (getOptionalStringAnn LBEXNodeAddressType spec.Service).1
  let name := getNameForStreamUpstream spec.Service target.PortName
  if set == HostSet then
    match alookup st.nodes target.NodeName with
    | none =>
        ({ Name := name, Algorithm := "", LeastTimeMethod := "", UpstreamServers := [] }, st)
    | some node =>
        ({ Name := name, Algorithm := "", LeastTimeMethod := "",
           UpstreamServers := [mkUpstreamServer (formatAddress addressType node target)] },
         { st with serviceUpstreamNodes := ainsert st.serviceUpstreamNodes spec.Key [node] })
  else if set == AllSet then
    ({ Name := name, Algorithm := "", LeastTimeMethod := "",
       UpstreamServers := nodesIter.map (fun node => mkUpstreamServer (formatAddress addressType node target)) },
     { st with serviceUpstreamNodes := ainsert st.serviceUpstreamNodes spec.Key nodesIter })
  else
    ({ Name := name, Algorithm := "", LeastTimeMethod := "", UpstreamServers := [] }, st)

structure GenAcc where
  st : ConfigState
  ups : List (String × StreamUpstream)
  servers : List StreamServerRec
deriving DecidableEq, Repr

/-- One iteration of the topology loop of generateStreamNginxConfig
(src/nginx/stream.go lines 443-497).  On the first occurrence of an upstream
name the algorithm directives are attached and, if the per-port listener
annotation parses, a stream server is emitted; a missing or malformed
annotation skips the server but keeps the upstream.  Later occurrences only
merge their member lists. -/
def genStep (svc : ServiceSpec) (nodesIter : List Node) (acc : GenAcc) (target : Target) :
    GenAcc :=
  let created :=
    if svc.UpstreamType == HostNode then createNodesStreamUpstream svc acc.st nodesIter target
    else if svc.UpstreamType == Pod then createPodStreamUpstream svc acc.st target
    else if svc.UpstreamType == ClusterIPType then createClusterStreamUpstream svc acc.st target
    else ({ Name := "", Algorithm := "", LeastTimeMethod := "", UpstreamServers := [] }, acc.st)
  let upstream0 := created.1
  let st2 := created.2
  match alookup acc.ups upstream0.Name with
  | some elem =>
      { st := st2,
        ups := ainsert acc.ups upstream0.Name
          { elem with UpstreamServers := elem.UpstreamServers ++ upstream0.UpstreamServers },
        servers := acc.servers }
  | none =>
      let algo := if svc.Algorithm != RoundRobin then svc.Algorithm else ""
      let ltm :=
        if algo == LowestLatency then
          ValidateMethod (getOptionalStringAnn LBEXMethodKey svc.Service).1
        else ""
      let upstream := { upstream0 with Algorithm := algo, LeastTimeMethod := ltm }
      let ups2 := acc.ups ++ [(upstream.Name, upstream)]
      match getIntAnn (LBEXPortAnnotBase ++ target.PortName) svc.Service with
      | .error _ => { st := st2, ups := ups2, servers := acc.servers }
      | .ok listenPort =>
          let passThrough := (getOptionalBoolAnn LBEXIpPassthrough svc.Service).1
          { st := st2, ups := ups2,
            servers := acc.servers ++
              [{ Listen := { Address := "", Port := toString listenPort,
                             UDP := stringsEqualFold target.Protocol "udp" },
                 ProxyProtocol := false, ProxyPassthrough := passThrough,
                 ProxyPassAddress := upstream.Name }] }

/-- The deterministic part of generateStreamNginxConfig: the insertion-ordered
upstream association list, the emitted servers and the cross-index updates. -/
def upstreamsAndServers (svc : ServiceSpec) (nodesIter : List Node) (st : ConfigState) : GenAcc :=
  svc.Topology.foldl (genStep svc nodesIter) { st := st, ups := [], servers := [] }

def resolverOf (svc : ServiceSpec) : String :=
  (getOptionalStringAnn LBEXResolverKey svc.Service).1

/-- The set of configurations generateStreamNginxConfig can return for one
call: the final loop ranges over the upstreams map, so the upstream list is
any permutation of the collected values; the resolver, the servers and their
order are determined.  nodesIter is the iteration sequence the nodes map
produced during this call. -/
def GenOutcome (svc : ServiceSpec) (st : ConfigState) (nodesIter : List Node)
    (cfg : StreamNginxConfig) : Prop :=
  nodesIter.Perm (st.nodes.map Prod.snd) ∧
  cfg.Resolver = resolverOf svc ∧
  cfg.Servers = (upstreamsAndServers svc nodesIter st).servers ∧
  cfg.Upstreams.Perm ((upstreamsAndServers svc nodesIter st).ups.map Prod.snd)

/-- AddOrUpdateStream + templateStream (src/nginx/stream.go lines 92-122)
reduced to its file-set effect, composed with the cross-index effects of the
generation pass: AddOrUpdateService (src/nginx/stream.go lines 266-280). -/
def AddOrUpdateServiceState (svc : ServiceSpec) (nodesIter : List Node) (st : ConfigState) :
    ConfigState :=
  let acc := upstreamsAndServers svc nodesIter st
  { acc.st with
      streamFiles :=
        if acc.st.streamFiles.contains svc.ConfigName then acc.st.streamFiles
        else acc.st.streamFiles ++ [svc.ConfigName] }

/-- DeleteConfiguration (src/nginx/stream.go lines 813-833) for the stream
path: remove the file of that name and delete the same name from both
cross-index maps. -/
def DeleteConfigurationState (name : String) (st : ConfigState) : ConfigState :=
  { st with
      streamFiles := st.streamFiles.filter (fun f => f != name),
      serviceUpstreamNodes := aerase st.serviceUpstreamNodes name,
      serviceUpstreamTarget := aerase st.serviceUpstreamTarget name }

/-- The namespace/name to namespace-name rewrite of syncServices
(src/unnamed/part_006 line 191). -/
def confNameOfKey (key : String) : String :=
  String.mk (key.toList.map (fun c => if c == '/' then '-' else c))

/-- serviceListByNodeName (src/nginx/stream.go lines 187-198): every service
key whose recorded upstream nodes include one of that name, in map iteration
order (order is unspecified in Go; membership is what the program uses). -/
def serviceListByNodeName (name : String) (st : ConfigState) : List String :=
  st.serviceUpstreamNodes.filterMap
    (fun p => if p.2.any (fun n => n.Name == name) then some p.1 else none)

/-- serviceListByNodeAddress (src/nginx/stream.go lines 174-185). -/
def serviceListByNodeAddress (address : String) (st : ConfigState) : List String :=
  st.serviceUpstreamNodes.filterMap
    (fun p =>
      if p.2.any (fun n => n.InternalIP == address || n.ExternalIP == address) then some p.1
      else none)

/-- AddOrUpdateNode (src/nginx/stream.go lines 201-227): an unknown node name
is inserted regardless of its active flag; a known node is replaced when
active (returning the services watching any changed address) and removed when
inactive (returning the services it participated in). -/
def AddOrUpdateNodeState (node : Node) (st : ConfigState) : List String × ConfigState :=
  match alookup st.nodes node.Name with
  | none =>
      ([], { st with nodes := ainsert st.nodes node.Name node })
  | some elem =>
      if node.Active then
        let s1 :=
          if elem.InternalIP != node.InternalIP then serviceListByNodeAddress elem.InternalIP st
          else []
        let s2 :=
          if elem.ExternalIP != node.ExternalIP then serviceListByNodeAddress elem.ExternalIP st
          else []
        (s1 ++ s2, { st with nodes := ainsert st.nodes node.Name node })
      else
        (serviceListByNodeName node.Name st, { st with nodes := aerase st.nodes node.Name })

/-- DeleteNode (src/nginx/stream.go lines 230-237): flip the stored record to
inactive and route through AddOrUpdateNode; unknown names are a no-op. -/
def DeleteNodeState (key : String) (st : ConfigState) : List String × ConfigState :=
  match alookup st.nodes key with
  | some node => AddOrUpdateNodeState { node with Active := false } st
  | none => ([], st)

/-! Concrete inputs for C2: an admissible single-port service of pod upstream
type, once without and once with the per-port listener annotation. -/

def c2Target : Target :=
  { ServicePort := 123, NodeIP := "", NodeName := "n1", NodePort := 30123,
    PortName := "ntp", PodIP := "10.1.1.5", PodPort := 30123, Protocol := "UDP" }

def c2ServiceNoPort : ServiceV1 :=
  { Name := "svc1", Namespace := "ns1", ServiceType := "NodePort", ClusterIP := "10.96.0.7",
    Annotations := [(LBEXClassKey, LBEXClassKeyValue)], Ports := [] }

def c2SvcNoPort : ServiceSpec :=
  { Service := c2ServiceNoPort, Key := "ns1/svc1", Algorithm := RoundRobin,
    ClusterIP := "10.96.0.7", ConfigName := "ns1-svc1", UpstreamType := Pod,
    Topology := [c2Target] }

def c2SvcWithPort : ServiceSpec :=
  { c2SvcNoPort with
      Service :=
        { c2ServiceNoPort with
            Annotations :=
              [(LBEXClassKey, LBEXClassKeyValue), (LBEXPortAnnotBase ++ "ntp", "123")] } }

/-- C2, code bug: with the listener-port annotation absent the configurator
emits no stream server for the port, unconditionally: the generation pass
never consults the require-port option (the flag is parsed in src/config.go
and documented in the README but never propagated), so the claimed
require-port=false fallback to the service port value does not exist.  With
the annotation present and parsing, its integer is the listener port. -/
theorem missing_port_annot_always_skips_server :
    (upstreamsAndServers c2SvcNoPort [] emptyConfigState).servers = [] ∧
    ((upstreamsAndServers c2SvcNoPort [] emptyConfigState).ups.map Prod.fst =
      ["ns1-svc1-ntp"]) ∧
    ((upstreamsAndServers c2SvcWithPort [] emptyConfigState).servers.map
        (fun srv => srv.Listen.Port) = ["123"]) := by
  refine ⟨rfl, rfl, rfl⟩

/-! Concrete inputs for C3: install a configuration for service key ns1/svc1,
then delete it under its namespace-name form ns1-svc1, as syncServices does
(src/unnamed/part_006 lines 190-194). -/

def c3Target : Target :=
  { ServicePort := 123, NodeIP := "", NodeName := "n1", NodePort := 30123,
    PortName := "ntp", PodIP := "10.1.1.5", PodPort := 30123, Protocol := "UDP" }

def c3Svc : ServiceSpec :=
  { Service :=
      { Name := "svc1", Namespace := "ns1", ServiceType := "NodePort",
        ClusterIP := "10.96.0.7",
        Annotations := [(LBEXClassKey, LBEXClassKeyValue), (LBEXPortAnnotBase ++ "ntp", "123")],
        Ports := [] },
    Key := "ns1/svc1", Algorithm := RoundRobin, ClusterIP := "10.96.0.7",
    ConfigName := "ns1-svc1", UpstreamType := Pod, Topology := [c3Target] }

/-- C3, code bug: the cross-index maps are keyed by the service key ns1/svc1,
but DeleteConfiguration receives and deletes the namespace-name form
ns1-svc1, so after the delete the configuration file is gone while both
cross-index entries for the service remain, leaving the cross-index
inconsistent with the on-disk file set. -/
theorem deleteConfiguration_leaves_stale_cross_index :
    confNameOfKey "ns1/svc1" = "ns1-svc1" ∧
    alookup (AddOrUpdateServiceState c3Svc [] emptyConfigState).serviceUpstreamTarget
        "ns1/svc1" = some [c3Target] ∧
    (AddOrUpdateServiceState c3Svc [] emptyConfigState).streamFiles = ["ns1-svc1"] ∧
    (DeleteConfigurationState (confNameOfKey "ns1/svc1")
        (AddOrUpdateServiceState c3Svc [] emptyConfigState)).streamFiles = [] ∧
    alookup (DeleteConfigurationState (confNameOfKey "ns1/svc1")
        (AddOrUpdateServiceState c3Svc [] emptyConfigState)).serviceUpstreamTarget
        "ns1/svc1" = some [c3Target] := by
  refine ⟨rfl, rfl, rfl, rfl, rfl⟩

theorem alookup_aerase {α : Type} (l : List (String × α)) (k : String) :
    alookup (aerase l k) k = none := by
  induction l with
  | nil => rfl
  | cons p rest ih =>
      unfold aerase at ih ⊢
      rw [List.filter_cons]
      by_cases h : p.1 == k
      · have : (p.1 != k) = false := by simp_all
        rw [this]
        simpa using ih
      · have : (p.1 != k) = true := by simp_all
        rw [this]
        simp only [if_true]
        unfold alookup
        rw [show (p.1 == k) = false from by simp_all]
        simpa using ih

def c5Node : Node :=
  { Name := "n1", Hostname := "n1", ExternalIP := "1.2.3.4", InternalIP := "10.0.0.11",
    Active := false }

/-- C5, counterexample: an inactive node record whose name is not yet in the
inventory is inserted by AddOrUpdateNode, so the node is present afterwards,
while the claim (behaves exactly as DeleteNode) requires it to be absent. -/
theorem addOrUpdateNode_inactive_insert_counterexample :
    ¬ (alookup (AddOrUpdateNodeState c5Node emptyConfigState).2.nodes "n1" = none) := by
  intro h
  exact absurd h (by decide)

/-- C5 as amended: for an inactive node record, AddOrUpdateNode coincides
with DeleteNode exactly when a node of that name is already present (removing
it and returning every service key whose recorded upstream nodes include that
name); when the name is absent, it instead inserts the inactive record and
returns no service keys. -/
theorem addOrUpdateNode_inactive_matches_delete (node : Node) (st : ConfigState)
    (hA : node.Active = false)
    (hwf : (alookup st.nodes node.Name).all (fun n => n.Name == node.Name) = true) :
    AddOrUpdateNodeState node st =
      (if (alookup st.nodes node.Name).isSome then DeleteNodeState node.Name st
       else ([], { st with nodes := ainsert st.nodes node.Name node })) ∧
    ((alookup st.nodes node.Name).isSome = true →
      alookup (AddOrUpdateNodeState node st).2.nodes node.Name = none ∧
      ∀ p ∈ st.serviceUpstreamNodes, (p.2.any (fun n => n.Name == node.Name)) = true →
        p.1 ∈ (AddOrUpdateNodeState node st).1) := by
  cases hl : alookup st.nodes node.Name with
  | none =>
      constructor
      · rw [if_neg (by simp [hl])]
        unfold AddOrUpdateNodeState
        rw [hl]
      · intro hs
        exact absurd hs (by decide)
  | some elem =>
      have hname : elem.Name = node.Name := by
        rw [hl] at hwf
        simpa using hwf
      have hstep : AddOrUpdateNodeState node st =
          (serviceListByNodeName node.Name st, { st with nodes := aerase st.nodes node.Name }) := by
        unfold AddOrUpdateNodeState
        rw [hl]
        simp only [hA, Bool.false_eq_true, if_false]
      constructor
      · rw [if_pos (by simp [hl])]
        unfold DeleteNodeState
        rw [hl]
        unfold AddOrUpdateNodeState
        simp only [hname, hl]
        simp [hA]
      · intro _
        constructor
        · rw [hstep]
          exact alookup_aerase st.nodes node.Name
        · intro p hp hpart
          rw [hstep]
          unfold serviceListByNodeName
          exact List.mem_filterMap.mpr ⟨p, hp, by rw [if_pos hpart]⟩

def c5wNodeStored : Node :=
  { Name := "n1", Hostname := "n1", ExternalIP := "1.2.3.4", InternalIP := "10.0.0.11",
    Active := true }

def c5wNodeInactive : Node :=
  { Name := "n1", Hostname := "n1", ExternalIP := "1.2.3.4", InternalIP := "10.0.0.12",
    Active := false }

def c5wState : ConfigState :=
  { nodes := [("n1", c5wNodeStored)],
    serviceUpstreamNodes := [("ns1/svc1", [c5wNodeStored])],
    serviceUpstreamTarget := [], streamFiles := [] }

theorem addOrUpdateNode_inactive_matches_delete_witness :
    c5wNodeInactive.Active = false ∧
    ((alookup c5wState.nodes c5wNodeInactive.Name).all
        (fun n => n.Name == c5wNodeInactive.Name) = true) ∧
    (AddOrUpdateNodeState c5wNodeInactive c5wState =
      (if (alookup c5wState.nodes c5wNodeInactive.Name).isSome then
        DeleteNodeState c5wNodeInactive.Name c5wState
       else ([], { c5wState with nodes := ainsert c5wState.nodes c5wNodeInactive.Name c5wNodeInactive }))) :=
  ⟨rfl, by decide,
    (addOrUpdateNode_inactive_matches_delete c5wNodeInactive c5wState rfl (by decide)).1⟩

/-! Concrete inputs for C6: a two-port admissible service of pod upstream
type, giving two upstream groups in the collection map. -/

def c6TargetA : Target :=
  { ServicePort := 80, NodeIP := "", NodeName := "n1", NodePort := 0,
    PortName := "http", PodIP := "10.1.1.7", PodPort := 8080, Protocol := "TCP" }

def c6TargetB : Target :=
  { ServicePort := 443, NodeIP := "", NodeName := "n1", NodePort := 0,
    PortName := "https", PodIP := "10.1.1.7", PodPort := 8443, Protocol := "TCP" }

def c6Svc : ServiceSpec :=
  { Service :=
      { Name := "svcC", Namespace := "ns3", ServiceType := "ClusterIP",
        ClusterIP := "10.96.0.42",
        Annotations :=
          [(LBEXClassKey, LBEXClassKeyValue),
           (LBEXPortAnnotBase ++ "http", "8080"),
           (LBEXPortAnnotBase ++ "https", "8443")],
        Ports := [] },
    Key := "ns3/svcC", Algorithm := RoundRobin, ClusterIP := "10.96.0.42",
    ConfigName := "ns3-svcC", UpstreamType := Pod,
    Topology := [c6TargetA, c6TargetB] }

def c6Values : List StreamUpstream :=
  (upstreamsAndServers c6Svc [] emptyConfigState).ups.map Prod.snd

def c6Cfg1 : StreamNginxConfig :=
  { Resolver := resolverOf c6Svc, Upstreams := c6Values,
    Servers := (upstreamsAndServers c6Svc [] emptyConfigState).servers }

def c6Cfg2 : StreamNginxConfig :=
  { Resolver := resolverOf c6Svc, Upstreams := c6Values.reverse,
    Servers := (upstreamsAndServers c6Svc [] emptyConfigState).servers }

/-- C6, counterexample: generateStreamNginxConfig collects the upstream
groups by ranging over a map, whose iteration order is unspecified; for a
service with two upstream groups both orders are possible outcomes of the
same reconcile, so two runs with no intervening events need not produce
identical configurations, and the rendered upstream list order can differ. -/
theorem generate_order_not_deterministic_counterexample :
    GenOutcome c6Svc emptyConfigState [] c6Cfg1 ∧
    GenOutcome c6Svc emptyConfigState [] c6Cfg2 ∧
    c6Cfg1 ≠ c6Cfg2 := by
  refine ⟨⟨List.Perm.refl _, rfl, rfl, List.Perm.refl _⟩,
    ⟨List.Perm.refl _, rfl, rfl, List.reverse_perm _⟩, ?_⟩
  intro h
  have : c6Cfg1.Upstreams = c6Cfg2.Upstreams := by rw [h]
  exact absurd this (by decide)

/-- C6 as amended: for one node-inventory iteration sequence, any two
configurations the generation pass can produce for the same key with no
intervening events agree on the resolver and on the stream server list
byte-for-byte, and their upstream group lists are permutations of each other;
whole-file byte identity is not guaranteed because the group list is
collected from an unordered map. -/
theorem generate_deterministic_up_to_upstream_order (svc : ServiceSpec)
    (st : ConfigState) (nodesIter : List Node) (cfg1 cfg2 : StreamNginxConfig)
    (h1 : GenOutcome svc st nodesIter cfg1) (h2 : GenOutcome svc st nodesIter cfg2) :
    cfg1.Resolver = cfg2.Resolver ∧ cfg1.Servers = cfg2.Servers ∧
      cfg1.Upstreams.Perm cfg2.Upstreams :=
  ⟨h1.2.1.trans h2.2.1.symm, h1.2.2.1.trans h2.2.2.1.symm,
    h1.2.2.2.trans h2.2.2.2.symm⟩

theorem generate_deterministic_up_to_upstream_order_witness :
    c6Cfg1.Resolver = c6Cfg2.Resolver ∧ c6Cfg1.Servers = c6Cfg2.Servers ∧
      c6Cfg1.Upstreams.Perm c6Cfg2.Upstreams :=
  generate_deterministic_up_to_upstream_order c6Svc emptyConfigState [] c6Cfg1 c6Cfg2
    ⟨List.Perm.refl _, rfl, rfl, List.Perm.refl _⟩
    ⟨List.Perm.refl _, rfl, rfl, List.reverse_perm _⟩

end Lbex
